import Mathlib

/-!
Verification of the `secure-server-fetch` library: a shallow embedding of
its request-validation pipeline (API-key policy and guard, constant-time
comparison, rate-limit gate, secure outbound fetch) together with theorems
settling the specification's claims against the code.

Sources embedded:
- `src/requireApiKey.ts` (`sanitizeApiKey`, `validateApiKey`,
  `constantTimeEqual`, `requireApiKey`)
- `src/rateLimit.ts` (`sanitizeIdentifier`, `rateLimit`)
- `src/secureServerFetch.ts` (`secureServerFetch`)

JavaScript strings are modelled as Lean `String`; Node `Buffer.from`
(UTF-8) is modelled byte-exactly on scalar values; platform capabilities
(the WHATWG URL parser, `fetch`, the Upstash store, the `window` global)
are modelled as explicit parameters, as the spec itself treats them.
-/

/-! ## JavaScript string primitives -/

/-- The ECMAScript whitespace class: the characters matched by the regex
class `\s` and stripped by `String.prototype.trim` (WhiteSpace and
LineTerminator code points). -/
def isJsWhitespace (c : Char) : Bool :=
  c.toNat == 9 || c.toNat == 10 || c.toNat == 11 || c.toNat == 12 ||
  c.toNat == 13 || c.toNat == 32 || c.toNat == 160 || c.toNat == 5760 ||
  (8192 ≤ c.toNat && c.toNat ≤ 8202) || c.toNat == 8232 ||
  c.toNat == 8233 || c.toNat == 8239 || c.toNat == 8287 ||
  c.toNat == 12288 || c.toNat == 65279

/-- `String.prototype.trim`: drop leading and trailing whitespace. -/
def jsTrim (s : String) : String :=
  ⟨((s.data.dropWhile isJsWhitespace).reverse.dropWhile isJsWhitespace).reverse⟩

/-- `sanitizeApiKey` (src/requireApiKey.ts:16-18):
`key.trim().replace(/\s+/g, '')`.  Replacing every maximal whitespace run
with the empty string deletes exactly the whitespace characters, so the
global replace is the filter keeping non-whitespace characters. -/
def sanitizeApiKey (key : String) : String :=
  ⟨(jsTrim key).data.filter (fun c => !isJsWhitespace c)⟩

/-! ## Key strength policy (`validateApiKey`, src/requireApiKey.ts:41-62) -/

/-- Character class `[A-Z]`. -/
def upperChar (c : Char) : Bool := 65 ≤ c.toNat && c.toNat ≤ 90

/-- Character class `[a-z]`. -/
def lowerChar (c : Char) : Bool := 97 ≤ c.toNat && c.toNat ≤ 122

/-- Character class `[0-9]`. -/
def digitChar (c : Char) : Bool := 48 ≤ c.toNat && c.toNat ≤ 57

/-- Character class `[A-Za-z0-9_-]` (95 is the underscore, 45 the hyphen). -/
def keyChar (c : Char) : Bool :=
  upperChar c || lowerChar c || digitChar c || c.toNat == 95 || c.toNat == 45

/-- `/^[A-Za-z0-9_-]+$/.test s`: non-empty and every character in the class. -/
def testKeyCharset (s : String) : Bool :=
  !s.data.isEmpty && s.data.all keyChar

/-- `/[A-Z]/.test s`. -/
def testUpper (s : String) : Bool := s.data.any upperChar

/-- `/[a-z]/.test s`. -/
def testLower (s : String) : Bool := s.data.any lowerChar

/-- `/[0-9]/.test s`. -/
def testDigit (s : String) : Bool := s.data.any digitChar

/-- Result record of `validateApiKey`: `{ isValid: boolean; error?: string }`. -/
structure KeyValidationResult where
  isValid : Bool
  error : Option String
deriving DecidableEq, Repr

/-- `validateApiKey` (src/requireApiKey.ts:41-62), translated branch by
branch: sanitize, compute the three checks, return the first failure. -/
def validateApiKey (key : String) : KeyValidationResult :=
  let sanitizedKey := sanitizeApiKey key
  let hasMinLength : Bool := decide (32 ≤ sanitizedKey.length)
  let hasValidChars : Bool := testKeyCharset sanitizedKey
  let hasMixedChars : Bool :=
    testUpper sanitizedKey && testLower sanitizedKey && testDigit sanitizedKey
  if hasMinLength = false then
    { isValid := false, error := some "API key must be at least 32 characters long" }
  else if hasValidChars = false then
    { isValid := false
      error := some "API key can only contain letters, numbers, underscores, and hyphens" }
  else if hasMixedChars = false then
    { isValid := false
      error := some "API key must contain at least one uppercase letter, one lowercase letter, and one number" }
  else
    { isValid := true, error := none }

/-! ## Constant-time comparison (`constantTimeEqual`, src/requireApiKey.ts:70-76) -/

/-- UTF-8 encoding of one scalar value, byte for byte: the semantics of
`Buffer.from(string)` per character (Lean `Char` carries Unicode scalar
values, as JS well-formed strings do). -/
def utf8EncodeCharModel (c : Char) : List Nat :=
  let n := c.toNat
  if n < 128 then [n]
  else if n < 2048 then [192 + n / 64, 128 + n % 64]
  else if n < 65536 then [224 + n / 4096, 128 + (n / 64) % 64, 128 + n % 64]
  else [240 + n / 262144, 128 + (n / 4096) % 64, 128 + (n / 64) % 64, 128 + n % 64]

/-- `Buffer.from(s)`: the UTF-8 bytes of `s`. -/
def bufferFromUtf8 (s : String) : List Nat :=
  s.data.flatMap utf8EncodeCharModel

/-- Node `crypto.timingSafeEqual`: throws a `RangeError` (`none`) when the
buffers have different byte lengths, otherwise compares every byte with no
early exit. -/
def timingSafeEqual (a b : List Nat) : Option Bool :=
  if a.length ≠ b.length then none
  else some ((a.zip b).all (fun p => p.1 == p.2))

/-- `constantTimeEqual` (src/requireApiKey.ts:70-76), translated exactly:
when the string lengths differ the code compares `a` against *itself*
("Return false through comparison" says its comment), otherwise it compares
the two buffers. -/
def constantTimeEqual (a b : String) : Option Bool :=
  if a.length ≠ b.length then timingSafeEqual (bufferFromUtf8 a) (bufferFromUtf8 a)
  else timingSafeEqual (bufferFromUtf8 a) (bufferFromUtf8 b)

/-! ## Key guard (`requireApiKey`, src/requireApiKey.ts:108-183) -/

/-- The `requirements` object repeated in the guard's JSON error bodies. -/
structure Requirements where
  format : String
  characters : String
  complexity : String
deriving DecidableEq, Repr

/-- A guard error body:
`{ error, message, requirements? }` as serialized by the source. -/
structure GuardBody where
  error : String
  message : String
  requirements : Option Requirements
deriving DecidableEq, Repr

/-- What a call to `requireApiKey` does: throw (misconfiguration or an
escaped runtime exception), return a `Response` with a status and JSON
body, or return `undefined` (pass). -/
inductive GuardOutcome where
  | thrown (msg : String)
  | response (status : Nat) (body : GuardBody)
  | pass
deriving DecidableEq, Repr

/-- The fixed requirements body (src/requireApiKey.ts:127-131 and twins). -/
def keyRequirements : Requirements :=
  { format := "Must be at least 32 characters long"
    characters := "Can only contain letters, numbers, underscores, and hyphens"
    complexity := "Must contain at least one uppercase letter, one lowercase letter, and one number" }

/-- An ASCII apostrophe, kept out of string literals. -/
def apos : String := ⟨[Char.ofNat 39]⟩

/-- `requireApiKey` (src/requireApiKey.ts:108-183).  `providedKey` is
`request.headers.get("x-api-key")` (`none` models `null`); JavaScript
truthiness makes both `null` and the empty string take the missing-key
branch.  Template interpolation of an `undefined` error prints
"undefined". -/
def requireApiKey (providedKey : Option String) (expectedKey : String) : GuardOutcome :=
  if expectedKey = "" ∨ jsTrim expectedKey = "" then
    .thrown "Expected API key cannot be empty"
  else
    let sanitizedExpectedKey := sanitizeApiKey expectedKey
    let expectedKeyValidation := validateApiKey sanitizedExpectedKey
    if expectedKeyValidation.isValid = false then
      .thrown ("Expected API key does not meet security requirements: "
        ++ (expectedKeyValidation.error.getD "undefined"))
    else
      match providedKey with
      | none =>
        .response 401
          { error := "API key is missing"
            message := "Please provide " ++ apos ++ "x-api-key" ++ apos
              ++ " header with a valid API key"
            requirements := some keyRequirements }
      | some provided =>
        if provided = "" then
          .response 401
            { error := "API key is missing"
              message := "Please provide " ++ apos ++ "x-api-key" ++ apos
                ++ " header with a valid API key"
              requirements := some keyRequirements }
        else
          let sanitizedProvidedKey := sanitizeApiKey provided
          if sanitizedProvidedKey = "" then
            .response 401
              { error := "Empty API key"
                message := "API key cannot be empty"
                requirements := some keyRequirements }
          else
            let providedKeyValidation := validateApiKey sanitizedProvidedKey
            if providedKeyValidation.isValid = false then
              .response 401
                { error := "Invalid API key format"
                  message := providedKeyValidation.error.getD "undefined"
                  requirements := some keyRequirements }
            else
              match constantTimeEqual sanitizedProvidedKey sanitizedExpectedKey with
              | none => .thrown "RangeError: Input buffers must have the same byte length"
              | some true => .pass
              | some false =>
                .response 401
                  { error := "Invalid API key"
                    message := "The provided API key is not valid"
                    requirements := none }

/-! ## Rate-limit gate (`rateLimit`, src/rateLimit.ts) -/

/-- The code points of the Redis-special character class in
`sanitizeIdentifier` (src/rateLimit.ts:134):
at-sign, braces, parentheses, square brackets, slash, backslash, double
quote, single quote, backquote, tilde, comma, period, semicolon, colon,
angle brackets, asterisk, ampersand, caret, percent, dollar, hash, bang,
question mark, equals, plus, pipe. -/
def redisSpecialCodes : List Nat :=
  [64, 123, 125, 40, 41, 91, 93, 47, 92, 34, 39, 96, 126, 44, 46, 59, 58,
   60, 62, 42, 38, 94, 37, 36, 35, 33, 63, 61, 43, 124]

/-- Membership in the Redis-special class. -/
def isRedisSpecial (c : Char) : Bool :=
  redisSpecialCodes.contains c.toNat

/-- Helper for `collapseWs`: the flag records whether the previous
character belonged to a whitespace run, so that only the first character
of each run emits the underscore. -/
def collapseWsAux : Bool → List Char → List Char
  | _, [] => []
  | prevWs, c :: rest =>
    if isJsWhitespace c then
      if prevWs then collapseWsAux true rest
      else Char.ofNat 95 :: collapseWsAux true rest
    else c :: collapseWsAux false rest

/-- `.replace(/[\s\n\r]+/g, '_')` (src/rateLimit.ts:136): each maximal run
of whitespace collapses to a single underscore (95). -/
def collapseWs (l : List Char) : List Char :=
  collapseWsAux false l

/-- `sanitizeIdentifier` (src/rateLimit.ts:131-145): replace each
Redis-special character with an underscore, collapse whitespace runs to an
underscore, truncate to 100 characters.  The emptiness check the source
performs on the result is lifted into `rateLimit` below (the source throws
from inside this helper; the observable behaviour is the same). -/
def sanitizeIdentifier (identifier : String) : String :=
  let replaced := identifier.data.map (fun c => if isRedisSpecial c then Char.ofNat 95 else c)
  ⟨(collapseWs replaced).take 100⟩

/-- The reply of the external sliding-window limiter capability
(`ratelimit.limit(...)`): `{ success, reset, remaining, limit }`. -/
structure StoreReply where
  success : Bool
  reset : Nat
  remaining : Nat
  limit : Nat
deriving DecidableEq, Repr

/-- `RateLimitError` (src/rateLimit.ts:16-26): message, HTTP status,
remaining requests, reset time. -/
structure RateLimitError where
  message : String
  status : Nat
  remainingRequests : Nat
  resetTime : Nat
deriving DecidableEq, Repr

/-- `RateLimitResult` (src/rateLimit.ts:11-14); headers as an association
list in insertion order. -/
structure RateLimitResult where
  success : Bool
  headers : List (String × String)
deriving DecidableEq, Repr

/-- `Math.round(timeframeMs / 1000)` for a positive integer input:
round half away from zero, i.e. floor of `ms/1000 + 1/2`. -/
def roundMsToSeconds (ms : Nat) : Nat :=
  (ms + 500) / 1000

/-- The informational headers built after the store reply
(src/rateLimit.ts:214-218). -/
def rateLimitHeaders (reply : StoreReply) : List (String × String) :=
  [("X-RateLimit-Limit", toString reply.limit),
   ("X-RateLimit-Remaining", toString reply.remaining),
   ("X-RateLimit-Reset", toString reply.reset)]

/-- One run of `rateLimit`: the value the caller sees (`result`), plus
instrumentation of the effects the claims talk about: whether the external
store was consulted, and the final value of the local `headers` object
(discarded when the function throws). -/
structure RateLimitRun where
  result : Except RateLimitError RateLimitResult
  storeCalled : Bool
  builtHeaders : Option (List (String × String))
deriving Repr

/-- `rateLimit` (src/rateLimit.ts:179-246, the revision with
`sanitizeIdentifier`).  `maxRequests` and `timeframeMs` are integers, so
the `Number.isInteger` half of the validations holds by typing and only
the positivity half remains.  The Redis handle is the injected `store`
capability (assumed initialized, as the spec treats it); store failures
other than the structured reply are outside the claims and not modelled. -/
def rateLimit (identifier : String) (maxRequests timeframeMs : Int)
    (store : String → StoreReply) : RateLimitRun :=
  if identifier = "" then
    { result := .error ⟨"Invalid identifier parameter", 400, 0, 0⟩
      storeCalled := false, builtHeaders := none }
  else
    let sanitizedIdentifier := sanitizeIdentifier identifier
    if sanitizedIdentifier = "" then
      { result := .error ⟨"Identifier becomes empty after sanitization", 400, 0, 0⟩
        storeCalled := false, builtHeaders := none }
    else if maxRequests ≤ 0 then
      { result := .error ⟨"maxRequests must be a positive integer", 400, 0, 0⟩
        storeCalled := false, builtHeaders := none }
    else if timeframeMs ≤ 0 then
      { result := .error ⟨"timeframeMs must be a positive integer", 400, 0, 0⟩
        storeCalled := false, builtHeaders := none }
    else
      let timeframeSeconds := roundMsToSeconds timeframeMs.toNat
      let reply := store sanitizedIdentifier
      let headers := rateLimitHeaders reply
      if reply.success = false then
        let headersOnDeny := headers ++ [("Retry-After", toString timeframeSeconds)]
        { result := .error ⟨"Rate limit exceeded", 429, reply.remaining, reply.reset⟩
          storeCalled := true, builtHeaders := some headersOnDeny }
      else
        { result := .ok { success := true, headers := headers }
          storeCalled := true, builtHeaders := some headers }

/-! ## Secure fetch (`secureServerFetch`, src/secureServerFetch.ts) -/

/-- The WHATWG `Headers` object: an association list whose names are
normalized to ASCII lowercase; `set` replaces any entry with the same
name and appends the new one. -/
def headersSet (hs : List (String × String)) (name value : String) :
    List (String × String) :=
  hs.filter (fun p => p.1 ≠ name.toLower) ++ [(name.toLower, value)]

/-- `Headers.get`: case-insensitive lookup. -/
def headersGet (hs : List (String × String)) (name : String) : Option String :=
  (hs.find? (fun p => p.1 == name.toLower)).map (fun p => p.2)

/-- `new Headers(init)`: set each entry in order. -/
def headersInit (init : List (String × String)) : List (String × String) :=
  init.foldl (fun acc p => headersSet acc p.1 p.2) []

/-- `SecureServerFetchOptions` (src/secureServerFetch.ts:45-49): the three
library options plus the caller-supplied headers from `RequestInit`
(the remaining `RequestInit` fields pass through to the transport
untouched and carry no behaviour here). -/
structure SecureServerFetchOptions where
  apiKey : Option String := none
  requireHttps : Option Bool := none
  timeout : Option Nat := none
  headers : List (String × String) := []

/-- Header assembly (src/secureServerFetch.ts:129-133): build a `Headers`
from the caller's headers, then `if (apiKey) headers.set('x-api-key',
apiKey)` — JavaScript truthiness, so the empty string does not set it. -/
def assembleHeaders (options : SecureServerFetchOptions) : List (String × String) :=
  let headers := headersInit options.headers
  match options.apiKey with
  | some k => if k = "" then headers else headersSet headers "x-api-key" k
  | none => headers

/-- Outcome of `new URL(url)`: the fields the code consults. -/
structure ParsedUrl where
  protocol : String
deriving DecidableEq, Repr

/-- What the concurrent race between the transport call and the timeout
timer produced: the timer fired first (`fetch` rejects with `AbortError`),
the transport failed with some other exception, or a response arrived.
`jsonBody = none` models `response.json()` rejecting. -/
structure FetchResponse where
  ok : Bool
  status : Nat
  statusText : String
  jsonBody : Option String
  textBody : String
deriving Repr

inductive TransportResult where
  | timeoutAborted
  | transportError (msg : String)
  | response (r : FetchResponse)
deriving Repr

/-- The platform capabilities `secureServerFetch` consumes: the URL
parser, the `window` global probe (`typeof window === 'undefined'`
negated), and the transport. -/
structure FetchEnv where
  parseUrl : String → Option ParsedUrl
  windowPresent : Bool
  transport : TransportResult

/-- The timeout timer as explicit state: `setTimeout` arms it, firing is
the timeout path, `clearTimeout` moves an armed timer to cleared and is a
no-op on a fired one. -/
inductive TimerState where
  | armed
  | fired
  | cleared
deriving DecidableEq, Repr

/-- `clearTimeout`. -/
def clearTimer : TimerState → TimerState
  | .armed => .cleared
  | s => s

/-- The classified outcome of a call (src/secureServerFetch.ts:1-25):
one of the three error classes or the decoded payload. -/
inductive FetchOutcome where
  | validationError (msg : String)
  | serverSideError (msg : String)
  | networkError (msg : String) (status : Option Nat) (statusText : Option String)
      (responseBody : Option String)
  | success (payload : String)
deriving DecidableEq, Repr

/-- One run of `secureServerFetch`: the outcome plus instrumentation of
the effects the claims talk about — whether `fetch` was invoked, the
headers handed to it, and the timer's state when the call terminates
(`none` if `setTimeout` never ran). -/
structure FetchRun where
  outcome : FetchOutcome
  networkCalled : Bool
  headersSent : Option (List (String × String))
  timerFinal : Option TimerState

/-- `secureServerFetch` (src/secureServerFetch.ts:109-191), path by path.
The `ValidationError` thrown for a non-HTTPS scheme is raised *inside* the
`try` around `new URL`, so the bare `catch` swallows it and rethrows the
`Invalid URL provided` message — both validation paths surface that text.
The inner `try ... finally { clearTimeout(timeoutId) }` runs the clear on
every exit of the transport section, which the per-branch `clearTimer`
applications transcribe. -/
def secureServerFetchRun (env : FetchEnv) (url : String)
    (options : SecureServerFetchOptions) : FetchRun :=
  match env.parseUrl url with
  | none =>
    { outcome := .validationError ("Invalid URL provided: " ++ url)
      networkCalled := false, headersSent := none, timerFinal := none }
  | some parsedUrl =>
    if options.requireHttps ≠ some false ∧ parsedUrl.protocol ≠ "https:" then
      { outcome := .validationError ("Invalid URL provided: " ++ url)
        networkCalled := false, headersSent := none, timerFinal := none }
    else if env.windowPresent then
      { outcome := .serverSideError "secureServerFetch can only run on the server."
        networkCalled := false, headersSent := none, timerFinal := none }
    else
      let timeout := options.timeout.getD 30000
      let headers := assembleHeaders options
      match env.transport with
      | .timeoutAborted =>
        { outcome := .networkError ("Request timeout after " ++ toString timeout ++ "ms")
            none (some "timeout") none
          networkCalled := true, headersSent := some headers
          timerFinal := some (clearTimer .fired) }
      | .transportError msg =>
        { outcome := .networkError ("Network request failed: " ++ msg) none none (some msg)
          networkCalled := true, headersSent := some headers
          timerFinal := some (clearTimer .armed) }
      | .response r =>
        if r.ok = false then
          let errorBody :=
            match r.jsonBody with
            | some j => j
            | none => r.textBody
          { outcome := .networkError ("Request failed with status " ++ toString r.status)
              (some r.status) (some r.statusText) (some errorBody)
            networkCalled := true, headersSent := some headers
            timerFinal := some (clearTimer .armed) }
        else
          match r.jsonBody with
          | some j =>
            { outcome := .success j
              networkCalled := true, headersSent := some headers
              timerFinal := some (clearTimer .armed) }
          | none =>
            { outcome := .networkError "Failed to parse JSON response"
                (some r.status) (some r.statusText) (some r.textBody)
              networkCalled := true, headersSent := some headers
              timerFinal := some (clearTimer .armed) }

/-! ## Helper lemmas -/

theorem string_ne_empty_iff {s : String} : s ≠ "" ↔ s.data ≠ [] := by
  constructor
  · intro h hl
    exact h (String.ext (by rw [hl]))
  · intro h he
    subst he
    exact h rfl

theorem dropWhile_eq_of_all_false {p : Char → Bool} {l : List Char}
    (h : ∀ c ∈ l, p c = false) : l.dropWhile p = l := by
  cases l with
  | nil => rfl
  | cons c rest =>
    rw [List.dropWhile_cons]
    simp [h c (by simp)]

theorem sanitizeApiKey_no_ws (s : String) :
    ∀ c ∈ (sanitizeApiKey s).data, isJsWhitespace c = false := by
  intro c hc
  unfold sanitizeApiKey at hc
  simp only [List.mem_filter, Bool.not_eq_eq_eq_not, Bool.not_true] at hc
  exact hc.2

theorem jsTrim_of_no_ws {l : List Char} (h : ∀ c ∈ l, isJsWhitespace c = false) :
    jsTrim ⟨l⟩ = ⟨l⟩ := by
  unfold jsTrim
  have h1 : l.dropWhile isJsWhitespace = l := dropWhile_eq_of_all_false h
  have h2 : l.reverse.dropWhile isJsWhitespace = l.reverse :=
    dropWhile_eq_of_all_false (fun c hc => h c (List.mem_reverse.mp hc))
  simp only [h1, h2, List.reverse_reverse]

theorem sanitizeApiKey_eq_self_of_no_ws (t : String)
    (h : ∀ c ∈ t.data, isJsWhitespace c = false) : sanitizeApiKey t = t := by
  obtain ⟨l⟩ := t
  unfold sanitizeApiKey
  rw [jsTrim_of_no_ws h]
  congr 1
  exact List.filter_eq_self.mpr (fun c hc => by simp [h c hc])

/-- Whitespace removal is idempotent: its output contains no whitespace,
so trimming and filtering it again changes nothing. -/
theorem sanitizeApiKey_idem (s : String) :
    sanitizeApiKey (sanitizeApiKey s) = sanitizeApiKey s :=
  sanitizeApiKey_eq_self_of_no_ws _ (sanitizeApiKey_no_ws s)

/-- `validateApiKey` sanitizes internally, so pre-sanitizing is invisible. -/
theorem validateApiKey_sanitize (k : String) :
    validateApiKey (sanitizeApiKey k) = validateApiKey k := by
  unfold validateApiKey
  rw [sanitizeApiKey_idem]

theorem validateApiKey_isValid_iff (k : String) :
    (validateApiKey k).isValid = true ↔
      (32 ≤ (sanitizeApiKey k).length ∧ testKeyCharset (sanitizeApiKey k) = true ∧
       testUpper (sanitizeApiKey k) = true ∧ testLower (sanitizeApiKey k) = true ∧
       testDigit (sanitizeApiKey k) = true) := by
  unfold validateApiKey
  dsimp only
  split_ifs with h1 h2 h3 <;>
    simp_all [Bool.and_eq_true, decide_eq_false_iff_not, decide_eq_true_eq]

theorem keyChar_lt128 {c : Char} (h : keyChar c = true) : c.toNat < 128 := by
  unfold keyChar upperChar lowerChar digitChar at h
  simp only [Bool.or_eq_true, Bool.and_eq_true, decide_eq_true_eq, beq_iff_eq] at h
  omega

theorem charset_ascii {t : String} (h : testKeyCharset t = true) :
    ∀ c ∈ t.data, c.toNat < 128 := by
  intro c hc
  unfold testKeyCharset at h
  simp only [Bool.and_eq_true, List.all_eq_true] at h
  exact keyChar_lt128 (h.2 c hc)

theorem utf8EncodeCharModel_ascii {c : Char} (h : c.toNat < 128) :
    utf8EncodeCharModel c = [c.toNat] := by
  unfold utf8EncodeCharModel
  simp [h]

theorem flatMap_utf8_length_ascii :
    ∀ l : List Char, (∀ c ∈ l, c.toNat < 128) →
      (l.flatMap utf8EncodeCharModel).length = l.length
  | [], _ => rfl
  | c :: rest, h => by
    rw [List.flatMap_cons, List.length_append, utf8EncodeCharModel_ascii (h c (by simp)),
      flatMap_utf8_length_ascii rest (fun d hd => h d (by simp [hd]))]
    simp [Nat.add_comm]

theorem bufferFromUtf8_length_ascii {s : String}
    (h : ∀ c ∈ s.data, c.toNat < 128) :
    (bufferFromUtf8 s).length = s.length :=
  flatMap_utf8_length_ascii s.data h

theorem timingSafeEqual_self (l : List Nat) : timingSafeEqual l l = some true := by
  unfold timingSafeEqual
  rw [if_neg (by simp)]
  congr 1
  induction l with
  | nil => rfl
  | cons a rest ih => simpa [List.zip_cons_cons] using ih

theorem constantTimeEqual_isSome {a b : String}
    (ha : ∀ c ∈ a.data, c.toNat < 128) (hb : ∀ c ∈ b.data, c.toNat < 128) :
    ∃ v, constantTimeEqual a b = some v := by
  unfold constantTimeEqual
  split_ifs with h
  · exact ⟨true, timingSafeEqual_self _⟩
  · unfold timingSafeEqual
    rw [if_neg]
    · exact ⟨_, rfl⟩
    · rw [bufferFromUtf8_length_ascii ha, bufferFromUtf8_length_ascii hb]
      simpa using h

theorem collapseWsAux_ne_nil {l : List Char} (h : l ≠ []) :
    collapseWsAux false l ≠ [] := by
  cases l with
  | nil => exact absurd rfl h
  | cons c rest =>
    unfold collapseWsAux
    split_ifs <;> simp_all

theorem sanitizeIdentifier_ne_empty {identifier : String} (h : identifier ≠ "") :
    sanitizeIdentifier identifier ≠ "" := by
  rw [string_ne_empty_iff] at h ⊢
  unfold sanitizeIdentifier collapseWs
  show (collapseWsAux false _).take 100 ≠ []
  have hmap : identifier.data.map
      (fun c => if isRedisSpecial c then Char.ofNat 95 else c) ≠ [] := by
    simpa using h
  have := collapseWsAux_ne_nil hmap
  cases hc : collapseWsAux false (identifier.data.map
      (fun c => if isRedisSpecial c then Char.ofNat 95 else c)) with
  | nil => exact absurd hc this
  | cons a rest => simp [hc, List.take_succ_cons]

theorem headersGet_set (hs : List (String × String)) (name value : String) :
    headersGet (headersSet hs name value) name = some value := by
  unfold headersGet headersSet
  rw [List.find?_append]
  have : (hs.filter (fun p => p.1 ≠ name.toLower)).find?
      (fun p => p.1 == name.toLower) = none := by
    rw [List.find?_eq_none]
    intro p hp
    have h2 := (List.mem_filter.mp hp).2
    simp only [decide_eq_true_eq] at h2
    simpa using h2
  simp [this]

/-! ## Claims -/

/-- **C1** (code bug, evaluated at the failing input): the claim — and the
code's own comment "Return false through comparison" — say
`constantTimeEqual` returns false for strings of different lengths, but
on the different-length path the code compares `a` against itself, so
`constantTimeEqual "a" "ab"` evaluates to `true` although `"a" ≠ "ab"`. -/
theorem c1_constantTimeEqual_diff_length_returns_true :
    constantTimeEqual "a" "ab" = some true ∧ ("a" : String) ≠ "ab" :=
  ⟨by decide, by decide⟩

/-- The charset test is false exactly when the sanitized key fails the
`[A-Za-z0-9_-]+` description. -/
theorem testKeyCharset_false_iff (d : List Char) :
    ((!d.isEmpty && d.all keyChar) = false) ↔
      ¬(d ≠ [] ∧ ∀ c ∈ d, keyChar c = true) := by
  rw [← Bool.not_eq_true]
  constructor
  · intro h hp
    refine h ?_
    simp only [Bool.and_eq_true, Bool.not_eq_true', List.isEmpty_eq_false,
      List.all_eq_true]
    exact ⟨hp.1, hp.2⟩
  · intro h hb
    simp only [Bool.and_eq_true, Bool.not_eq_true', List.isEmpty_eq_false,
      List.all_eq_true] at hb
    exact h hb

/-- The mixed-character test is false exactly when one of the three
classes is missing. -/
theorem testMixed_false_iff (d : List Char) :
    ((d.any upperChar && d.any lowerChar && d.any digitChar) = false) ↔
      ¬((∃ c ∈ d, upperChar c = true) ∧ (∃ c ∈ d, lowerChar c = true) ∧
        (∃ c ∈ d, digitChar c = true)) := by
  rw [← Bool.not_eq_true]
  constructor
  · intro h hp
    exact h (by simp [Bool.and_eq_true, List.any_eq_true]; tauto)
  · intro h hb
    simp only [Bool.and_eq_true, List.any_eq_true] at hb
    exact h ⟨hb.1.1, hb.1.2, hb.2⟩

/-- **C5**: `validateApiKey` checks, in this order, length ≥ 32 of the
sanitized key, then membership of every character in `[A-Za-z0-9_-]`, then
the presence of an uppercase letter, a lowercase letter and a digit, and
returns the reason of the first failing check; a key shorter than 32 after
sanitization gets the length reason regardless of content, and a key
passing all three checks is valid with no reason. -/
theorem c5_validateApiKey_check_order (key : String) :
    validateApiKey key =
      (if (sanitizeApiKey key).length < 32 then
        { isValid := false, error := some "API key must be at least 32 characters long" }
      else if ¬((sanitizeApiKey key).data ≠ [] ∧
          ∀ c ∈ (sanitizeApiKey key).data, keyChar c = true) then
        { isValid := false
          error := some "API key can only contain letters, numbers, underscores, and hyphens" }
      else if ¬((∃ c ∈ (sanitizeApiKey key).data, upperChar c = true) ∧
          (∃ c ∈ (sanitizeApiKey key).data, lowerChar c = true) ∧
          (∃ c ∈ (sanitizeApiKey key).data, digitChar c = true)) then
        { isValid := false
          error := some "API key must contain at least one uppercase letter, one lowercase letter, and one number" }
      else { isValid := true, error := none }) := by
  unfold validateApiKey testKeyCharset testUpper testLower testDigit
  dsimp only
  by_cases hL : (sanitizeApiKey key).length < 32
  · rw [if_pos (by simpa [decide_eq_false_iff_not] using Nat.not_le.mpr hL), if_pos hL]
  · rw [if_neg (by simpa [decide_eq_false_iff_not] using Nat.not_lt.mp hL), if_neg hL]
    by_cases hC : (sanitizeApiKey key).data ≠ [] ∧
        ∀ c ∈ (sanitizeApiKey key).data, keyChar c = true
    · rw [if_neg ((not_iff_not.mpr (testKeyCharset_false_iff _)).mpr (not_not_intro hC)),
        if_neg (not_not_intro hC)]
      by_cases hM : (∃ c ∈ (sanitizeApiKey key).data, upperChar c = true) ∧
          (∃ c ∈ (sanitizeApiKey key).data, lowerChar c = true) ∧
          (∃ c ∈ (sanitizeApiKey key).data, digitChar c = true)
      · rw [if_neg ((not_iff_not.mpr (testMixed_false_iff _)).mpr (not_not_intro hM)),
          if_neg (not_not_intro hM)]
      · rw [if_pos ((testMixed_false_iff _).mpr hM), if_pos hM]
    · rw [if_pos ((testKeyCharset_false_iff _).mpr hC), if_pos hC]

/-- **C8**: `sanitizeApiKey` is idempotent — sanitizing an already
sanitized key changes nothing. -/
theorem c8_sanitizeApiKey_idempotent (s : String) :
    sanitizeApiKey (sanitizeApiKey s) = sanitizeApiKey s :=
  sanitizeApiKey_idem s

/-- **C9 counterexample**: the claim says `sanitizeIdentifier` keeps or
replaces every character and never deletes one, but a whitespace *run*
collapses to a single underscore: `"a  b"` (4 characters) sanitizes to
`"a_b"` (3 characters), so a character was deleted. -/
theorem c9_counterexample :
    sanitizeIdentifier "a  b" = "a_b" ∧ ("a  b" : String).length = 4 ∧
    ("a_b" : String).length = 3 := by
  refine ⟨by decide, by decide, by decide⟩

/-- **C9 (amended)**: for every non-empty identifier, `sanitizeIdentifier`
returns a non-empty string of length at most 100 (whitespace runs may
shrink the string, but never to empty), so the "Identifier becomes empty
after sanitization" error branch of `rateLimit` is unreachable for
identifiers passing the non-empty precondition. -/
theorem c9_sanitizeIdentifier_nonempty_bounded (identifier : String)
    (h : identifier ≠ "") :
    sanitizeIdentifier identifier ≠ "" ∧
    (sanitizeIdentifier identifier).length ≤ 100 ∧
    ∀ (maxRequests timeframeMs : Int) (store : String → StoreReply)
      (e : RateLimitError),
      (rateLimit identifier maxRequests timeframeMs store).result = Except.error e →
      e.message ≠ "Identifier becomes empty after sanitization" := by
  refine ⟨sanitizeIdentifier_ne_empty h, ?_, ?_⟩
  · unfold sanitizeIdentifier
    dsimp only
    show (List.take 100 _).length ≤ 100
    exact List.length_take_le 100 _
  · intro mr tf store e he
    unfold rateLimit at he
    dsimp only at he
    rw [if_neg h, if_neg (sanitizeIdentifier_ne_empty h)] at he
    split_ifs at he <;> dsimp only at he <;>
      first
        | exact Except.noConfusion he
        | (injection he with h'
           subst h'
           dsimp only
           decide)

/-- **C9 witness**: at the spec's own example identifier. -/
theorem c9_witness :
    sanitizeIdentifier "user@123" ≠ "" ∧
    (sanitizeIdentifier "user@123").length ≤ 100 :=
  ⟨(c9_sanitizeIdentifier_nonempty_bounded "user@123" (by decide)).1,
   (c9_sanitizeIdentifier_nonempty_bounded "user@123" (by decide)).2.1⟩

/-- **C3 counterexample**: `Math.round(500/1000)` is 1, not 0 (JavaScript
rounds halves up), and a window that *does* round to 0 whole seconds
(timeframeMs = 400) is not rejected: `rateLimit` calls the external store
and succeeds, contradicting "fails with a Validation error and no call to
the external store's limit capability is made". -/
theorem c3_counterexample :
    roundMsToSeconds (Int.toNat 500) = 1 ∧
    roundMsToSeconds (Int.toNat 400) = 0 ∧
    (rateLimit "user" 100 400 (fun _ => ⟨true, 0, 99, 100⟩)).storeCalled = true ∧
    (rateLimit "user" 100 400 (fun _ => ⟨true, 0, 99, 100⟩)).result =
      Except.ok { success := true
                  headers := [("X-RateLimit-Limit", "100"),
                              ("X-RateLimit-Remaining", "99"),
                              ("X-RateLimit-Reset", "0")] } :=
  ⟨by decide, by decide, by rfl, by rfl⟩

/-- **C3 (amended)**: `timeframeMs = 500` rounds to 1 second, and windows
that round to 0 whole seconds (positive `timeframeMs ≤ 499`) are *not*
rejected: validation only rejects non-positive values, so the call reaches
the external store with a 0-second window. -/
theorem c3_rateLimit_zero_window_not_rejected (identifier : String)
    (maxRequests timeframeMs : Int) (store : String → StoreReply)
    (hid : identifier ≠ "") (hmr : 0 < maxRequests)
    (h1 : 1 ≤ timeframeMs) (h2 : timeframeMs ≤ 499) :
    roundMsToSeconds timeframeMs.toNat = 0 ∧
    (rateLimit identifier maxRequests timeframeMs store).storeCalled = true := by
  constructor
  · unfold roundMsToSeconds
    omega
  · unfold rateLimit
    dsimp only
    rw [if_neg hid, if_neg (sanitizeIdentifier_ne_empty hid),
      if_neg (by omega), if_neg (by omega)]
    split_ifs <;> rfl

/-- **C3 witness**: the amended claim at `timeframeMs = 400`. -/
theorem c3_witness :
    roundMsToSeconds (Int.toNat 400) = 0 ∧
    (rateLimit "user" 100 400 (fun _ => ⟨true, 0, 99, 100⟩)).storeCalled = true :=
  c3_rateLimit_zero_window_not_rejected "user" 100 400 (fun _ => ⟨true, 0, 99, 100⟩)
    (by decide) (by decide) (by decide) (by decide)

/-- **C4 counterexample**: on deny the caller receives only the thrown
`RateLimitError` value — the `result` of the run is this error, and the
informational headers live only in the `RateLimitResult` of the ok branch,
so they are *not* returned to the caller "regardless of allow or deny". -/
theorem c4_counterexample :
    (rateLimit "user" 100 60000 (fun _ => ⟨false, 1700000000, 0, 100⟩)).result =
      Except.error ⟨"Rate limit exceeded", 429, 0, 1700000000⟩ := by rfl

/-- **C4 (amended)**: every call that reaches the external limiter builds
the three informational headers, but returns them to the caller only on
allow; on deny (`success = false`, remaining = r, resetAt = T) the call
raises `RateLimitError("Rate limit exceeded", 429)` carrying r and T, and
the headers object built before the throw — which by then also contains
`Retry-After` = window length in whole seconds — is discarded with the
throw rather than returned. -/
theorem c4_rateLimit_headers_and_deny (identifier : String)
    (maxRequests timeframeMs : Int) (store : String → StoreReply)
    (hid : identifier ≠ "") (hmr : 0 < maxRequests) (htf : 0 < timeframeMs) :
    (rateLimit identifier maxRequests timeframeMs store).storeCalled = true ∧
    ((store (sanitizeIdentifier identifier)).success = true →
      (rateLimit identifier maxRequests timeframeMs store).result =
        Except.ok { success := true
                    headers := rateLimitHeaders (store (sanitizeIdentifier identifier)) } ∧
      (rateLimit identifier maxRequests timeframeMs store).builtHeaders =
        some (rateLimitHeaders (store (sanitizeIdentifier identifier)))) ∧
    ((store (sanitizeIdentifier identifier)).success = false →
      (rateLimit identifier maxRequests timeframeMs store).result =
        Except.error ⟨"Rate limit exceeded", 429,
          (store (sanitizeIdentifier identifier)).remaining,
          (store (sanitizeIdentifier identifier)).reset⟩ ∧
      (rateLimit identifier maxRequests timeframeMs store).builtHeaders =
        some (rateLimitHeaders (store (sanitizeIdentifier identifier)) ++
          [("Retry-After", toString (roundMsToSeconds timeframeMs.toNat))])) := by
  unfold rateLimit
  dsimp only
  rw [if_neg hid, if_neg (sanitizeIdentifier_ne_empty hid),
    if_neg (by omega), if_neg (by omega)]
  refine ⟨?_, ?_, ?_⟩
  · split_ifs <;> rfl
  · intro hs
    rw [if_neg (by simp [hs])]
    exact ⟨rfl, rfl⟩
  · intro hs
    rw [if_pos hs]
    exact ⟨rfl, rfl⟩

/-- **C4 witness**: the amended claim at the spec's scenario
(maxRequests = 100, timeframeMs = 60000, deny with remaining 0 and
resetAt 1700000000; Retry-After is 60). -/
theorem c4_witness :
    (rateLimit "user" 100 60000 (fun _ => ⟨false, 1700000000, 0, 100⟩)).storeCalled = true ∧
    (rateLimit "user" 100 60000 (fun _ => ⟨false, 1700000000, 0, 100⟩)).builtHeaders =
      some [("X-RateLimit-Limit", "100"), ("X-RateLimit-Remaining", "0"),
            ("X-RateLimit-Reset", "1700000000"), ("Retry-After", "60")] := by
  have h := c4_rateLimit_headers_and_deny "user" 100 60000
    (fun _ => ⟨false, 1700000000, 0, 100⟩) (by decide) (by decide) (by decide)
  exact ⟨h.1, (h.2.2 rfl).2⟩

/-- **C6**: `secureServerFetch` performs URL parsing and the HTTPS-scheme
check before the execution-context check and before any transport call: an
unparsable URL, or a non-https URL without `requireHttps: false`, yields a
Validation error in every environment — including one where a `window`
global is present — and the transport is never invoked. -/
theorem c6_secureServerFetch_url_check_first (env : FetchEnv) (url : String)
    (options : SecureServerFetchOptions)
    (h : env.parseUrl url = none ∨
      ∃ p, env.parseUrl url = some p ∧ options.requireHttps ≠ some false ∧
        p.protocol ≠ "https:") :
    (secureServerFetchRun env url options).outcome =
      FetchOutcome.validationError ("Invalid URL provided: " ++ url) ∧
    (secureServerFetchRun env url options).networkCalled = false := by
  unfold secureServerFetchRun
  rcases h with h | ⟨p, hp, hreq, hproto⟩
  · rw [h]
    exact ⟨rfl, rfl⟩
  · rw [hp]
    dsimp only
    rw [if_pos ⟨hreq, hproto⟩]
    exact ⟨rfl, rfl⟩

/-- **C6 witness**: the spec's scenario — `url = "http://example.com"`,
default options, in a browser-like environment (`window` present). -/
theorem c6_witness :
    (secureServerFetchRun ⟨fun _ => some ⟨"http:"⟩, true, .transportError "unreachable"⟩
        "http://example.com" {}).outcome =
      FetchOutcome.validationError ("Invalid URL provided: " ++ "http://example.com") ∧
    (secureServerFetchRun ⟨fun _ => some ⟨"http:"⟩, true, .transportError "unreachable"⟩
        "http://example.com" {}).networkCalled = false :=
  c6_secureServerFetch_url_check_first _ _ _
    (Or.inr ⟨⟨"http:"⟩, rfl, by decide, by decide⟩)

/-- **C7**: modelling the timeout timer as explicit state, no execution of
`secureServerFetch` terminates with the timer still armed: the
`finally { clearTimeout(timeoutId) }` clears it on the response path, the
non-2xx throw, the JSON-decode throw and the transport-exception path, and
on the timeout path the timer has already fired. -/
theorem c7_secureServerFetch_timer_never_left_armed (env : FetchEnv)
    (url : String) (options : SecureServerFetchOptions) :
    (secureServerFetchRun env url options).timerFinal ≠ some TimerState.armed := by
  unfold secureServerFetchRun
  cases hp : env.parseUrl url with
  | none => simp
  | some p =>
    dsimp only
    split_ifs
    · simp
    · simp
    · cases ht : env.transport with
      | timeoutAborted => simp [clearTimer]
      | transportError msg => simp [clearTimer]
      | response r =>
        dsimp only
        split_ifs
        · simp [clearTimer]
        · cases hj : r.jsonBody <;> simp [clearTimer]

/-- **C10**: the `apiKey` option is tested for truthiness, not presence:
an empty-string `apiKey` (like an absent one) leaves the assembled headers
exactly as the caller supplied them — in particular a caller-supplied
`x-api-key` header goes to the transport unchanged — while a non-empty
`apiKey` overrides any caller-supplied `x-api-key` header. -/
theorem c10_apiKey_truthiness (callerHeaders : List (String × String)) (k : String) :
    assembleHeaders { apiKey := some "", headers := callerHeaders } =
      headersInit callerHeaders ∧
    assembleHeaders { apiKey := none, headers := callerHeaders } =
      headersInit callerHeaders ∧
    headersGet (assembleHeaders { apiKey := some "", headers := callerHeaders })
        "x-api-key" =
      headersGet (headersInit callerHeaders) "x-api-key" ∧
    (k ≠ "" →
      headersGet (assembleHeaders { apiKey := some k, headers := callerHeaders })
          "x-api-key" = some k) := by
  refine ⟨by simp [assembleHeaders], by simp [assembleHeaders], by simp [assembleHeaders], ?_⟩
  intro hk
  unfold assembleHeaders
  dsimp only
  rw [if_neg hk]
  exact headersGet_set _ _ _

/-- **C10 witness**: a caller-supplied `x-api-key` header survives an
empty `apiKey` option and is overridden by a non-empty one. -/
theorem c10_witness :
    headersGet
        (assembleHeaders { apiKey := some "K", headers := [("x-api-key", "caller")] })
        "x-api-key" = some "K" ∧
    assembleHeaders { apiKey := some "", headers := [("x-api-key", "caller")] } =
      headersInit [("x-api-key", "caller")] :=
  ⟨(c10_apiKey_truthiness [("x-api-key", "caller")] "K").2.2.2 (by decide),
   (c10_apiKey_truthiness [("x-api-key", "caller")] "K").1⟩

/-- **C2**: for every expected key satisfying the strength policy,
`requireApiKey` passes (returns `undefined`) exactly when a header value
is present whose sanitized form is strong and compares equal to the
sanitized expected key under the code's constant-time comparison; every
other outcome under that precondition is a 401 response value (never a
throw). -/
theorem c2_requireApiKey_pass_iff (expectedKey : String)
    (h : (validateApiKey expectedKey).isValid = true) (providedKey : Option String) :
    (requireApiKey providedKey expectedKey = GuardOutcome.pass ↔
      ∃ s, providedKey = some s ∧
        (validateApiKey (sanitizeApiKey s)).isValid = true ∧
        constantTimeEqual (sanitizeApiKey s) (sanitizeApiKey expectedKey) = some true) ∧
    (requireApiKey providedKey expectedKey = GuardOutcome.pass ∨
      ∃ b, requireApiKey providedKey expectedKey = GuardOutcome.response 401 b) := by
  have hiff := (validateApiKey_isValid_iff expectedKey).mp h
  have h32 : 32 ≤ (sanitizeApiKey expectedKey).length := hiff.1
  have hekA : ∀ c ∈ (sanitizeApiKey expectedKey).data, c.toNat < 128 :=
    charset_ascii hiff.2.1
  have hek_ne : ¬(expectedKey = "" ∨ jsTrim expectedKey = "") := by
    rintro (rfl | ht)
    · exact absurd h32 (by decide)
    · have hempty : sanitizeApiKey expectedKey = "" := by
        unfold sanitizeApiKey
        rw [ht]
        rfl
      rw [hempty] at h32
      exact absurd h32 (by decide)
  have hval2 : validateApiKey (sanitizeApiKey expectedKey) = validateApiKey expectedKey :=
    validateApiKey_sanitize expectedKey
  unfold requireApiKey
  rw [if_neg hek_ne]
  dsimp only
  rw [hval2, if_neg (by simp [h])]
  cases providedKey with
  | none =>
    refine ⟨⟨fun hp => GuardOutcome.noConfusion hp, ?_⟩, Or.inr ⟨_, rfl⟩⟩
    rintro ⟨s, hs, -, -⟩
    exact Option.noConfusion hs
  | some s =>
    dsimp only
    by_cases hs0 : s = ""
    · rw [if_pos hs0]
      refine ⟨⟨fun hp => GuardOutcome.noConfusion hp, ?_⟩, Or.inr ⟨_, rfl⟩⟩
      rintro ⟨s', hs', hv, -⟩
      injection hs' with h''
      rw [← h'', hs0] at hv
      exact absurd hv (by decide)
    · rw [if_neg hs0]
      by_cases hsan : sanitizeApiKey s = ""
      · rw [if_pos hsan]
        refine ⟨⟨fun hp => GuardOutcome.noConfusion hp, ?_⟩, Or.inr ⟨_, rfl⟩⟩
        rintro ⟨s', hs', hv, -⟩
        injection hs' with h''
        rw [← h'', hsan] at hv
        exact absurd hv (by decide)
      · rw [if_neg hsan]
        by_cases hpv : (validateApiKey (sanitizeApiKey s)).isValid = true
        · have hnf : ¬((validateApiKey (sanitizeApiKey s)).isValid = false) := by
            intro hf
            rw [hpv] at hf
            exact Bool.noConfusion hf
          rw [if_neg hnf]
          have hpA : ∀ c ∈ (sanitizeApiKey s).data, c.toNat < 128 :=
            charset_ascii
              ((validateApiKey_isValid_iff s).mp
                ((validateApiKey_sanitize s) ▸ hpv)).2.1
          obtain ⟨v, hv⟩ := constantTimeEqual_isSome hpA hekA
          rw [hv]
          cases v with
          | false =>
            refine ⟨⟨fun hp => GuardOutcome.noConfusion hp, ?_⟩, Or.inr ⟨_, rfl⟩⟩
            rintro ⟨s', hs', -, hcte⟩
            injection hs' with h''
            rw [← h''] at hcte
            rw [hv] at hcte
            exact absurd hcte (by simp)
          | true =>
            exact ⟨⟨fun _ => ⟨s, rfl, hpv, hv⟩, fun _ => rfl⟩, Or.inl rfl⟩
        · have hpvf : (validateApiKey (sanitizeApiKey s)).isValid = false := by
            cases hb : (validateApiKey (sanitizeApiKey s)).isValid
            · rfl
            · exact absurd hb hpv
          rw [if_pos hpvf]
          refine ⟨⟨fun hp => GuardOutcome.noConfusion hp, ?_⟩, Or.inr ⟨_, rfl⟩⟩
          rintro ⟨s', hs', hv, -⟩
          injection hs' with h''
          rw [← h''] at hv
          exact absurd hv hpv

/-- **C2 witness**: a strong 34-character key passed in the header equal
to the expected key yields `pass`. -/
theorem c2_witness :
    (validateApiKey "Test123456789ABCDEF123456789abcdef").isValid = true ∧
    requireApiKey (some "Test123456789ABCDEF123456789abcdef")
      "Test123456789ABCDEF123456789abcdef" = GuardOutcome.pass :=
  ⟨by decide,
   ((c2_requireApiKey_pass_iff "Test123456789ABCDEF123456789abcdef" (by decide)
      (some "Test123456789ABCDEF123456789abcdef")).1).mpr
     ⟨"Test123456789ABCDEF123456789abcdef", rfl, by decide, by decide⟩⟩
